import Mathlib

/-!
Shallow embedding of the aerial-cinema image-to-video app
(`src/services/geminiService.ts`, `src/types.ts`, `src/unnamed/part_000`).

The hosted AI calls are modelled by explicit environments: the text-model
response, the submission outcome, the sequence of fetched operation states
and the random index stream are inputs, and the functions return their
result together with a trace of observable events (progress updates,
sleeps, status polls, video fetches) or React state updates.
-/

namespace AerialCinema

/-- The `step` union of `VideoGenerationStatus` from `src/types.ts`. -/
inductive Step where
  | idle
  | analyzing
  | generating
  | polling
  | completed
  | error
deriving DecidableEq

/-- `VideoGenerationStatus` from `src/types.ts`: a step, a message, and an
optional numeric progress (never set by the code). -/
structure VideoGenerationStatus where
  step : Step
  message : String
  progress : Option Nat := none
deriving DecidableEq

/-- `GenerationResult` from `src/types.ts`. -/
structure GenerationResult where
  videoUrl : String
  directorPrompt : String
deriving DecidableEq

/-- A thrown JavaScript error, reduced to its `message` field (the only
field the code inspects). -/
structure JsError where
  message : String
deriving DecidableEq

/-- The hosted text-model response: its optional `text` field
(`response.text` may be missing, modelled by `none`). -/
structure GenContentResponse where
  text : Option String
deriving DecidableEq

/-- JavaScript `s.includes(pat)`: substring containment. -/
def jsIncludes (s pat : String) : Bool :=
  (List.range (s.toList.length + 1)).any (fun i => pat.toList.isPrefixOf (s.toList.drop i))

/-- JavaScript `s.trim()`: strip whitespace from both ends. -/
def jsTrim (s : String) : String :=
  String.mk (((s.toList.dropWhile Char.isWhitespace).reverse.dropWhile Char.isWhitespace).reverse)

/-- Fallback director prompt of `generateDirectorPrompt` in
`src/services/geminiService.ts` line 42. -/
def directorFallbackService : String :=
  "A professional cinematic drone shot of the scene."

/-- Fallback director prompt of `generateDirectorPrompt` in
`src/unnamed/part_000` line 75. -/
def directorFallbackP0 : String :=
  "Clean aerial camera footage, 5-second cinematic luxury commercial reveal of the building, invisible-drone stabilized flight path."

/-- Core of `generateDirectorPrompt`, parameterised by the fixed fallback
string (the two source variants differ only in the fallback, the model name
and the prompt template). The hosted call's response is an explicit input;
`response.text?.trim() || fallback` returns the trimmed text unless it is
empty or missing, in which case the fallback is returned (JavaScript `||`
treats the empty string as falsy). -/
def generateDirectorPromptWith (fallback : String) (imageBuffer mimeType : String)
    (response : GenContentResponse) : String :=
  match response.text with
  | some t => if jsTrim t = "" then fallback else jsTrim t
  | none => fallback

/-- `generateDirectorPrompt` from `src/services/geminiService.ts` lines 22-43. -/
def generateDirectorPrompt (imageBuffer mimeType : String)
    (response : GenContentResponse) : String :=
  generateDirectorPromptWith directorFallbackService imageBuffer mimeType response

/-- `generateDirectorPrompt` from `src/unnamed/part_000` lines 56-76. -/
def generateDirectorPromptP0 (imageBuffer mimeType : String)
    (response : GenContentResponse) : String :=
  generateDirectorPromptWith directorFallbackP0 imageBuffer mimeType response

/-- An asynchronous video operation as observed by the client: its `done`
flag and the optional generated-video locator, collapsing the optional
chain `operation.response?.generatedVideos?.[0]?.video?.uri` into one
optional field. -/
structure Operation where
  done : Bool
  uri : Option String
deriving DecidableEq

/-- Observable events of one `generateVeoVideo` run: a progress-callback
invocation, a fixed-delay sleep, a status poll, a video-bytes fetch. -/
inductive VeoEvent where
  | update (msg : String)
  | sleep (ms : Nat)
  | poll
  | fetchVideo (url : String)
deriving DecidableEq

def isPoll : VeoEvent → Bool
  | VeoEvent.poll => true
  | _ => false

def isUpdate : VeoEvent → Bool
  | VeoEvent.update _ => true
  | _ => false

def isFetch : VeoEvent → Bool
  | VeoEvent.fetchVideo _ => true
  | _ => false

/-- The constants in which the two `generateVeoVideo` source variants
differ: the two fixed progress messages, the poll delay, the cosmetic
message pool, and the missing-locator failure message. -/
structure VeoConfig where
  initMsg : String
  flightMsg : String
  delayMs : Nat
  messages : List String
  failMsg : String

/-- Constants of `generateVeoVideo` in `src/services/geminiService.ts`. -/
def veoConfigService : VeoConfig where
  initMsg := "Initializing cinematic sequence..."
  flightMsg := "Aerial drone in flight... framing the shot."
  delayMs := 8000
  messages := ["Stabilizing gimbal trajectory...",
    "Adjusting aperture for natural lighting...",
    "Calculating parallax between layers...",
    "Rendering cinematic motion blur...",
    "Ensuring fluid drone physics...",
    "Finalizing commercial-grade output..."]
  failMsg := "Video generation failed to return a URI."

/-- Constants of `generateVeoVideo` in `src/unnamed/part_000`. -/
def veoConfigP0 : VeoConfig where
  initMsg := "Initializing cinematic master sequence..."
  flightMsg := "Stabilizing aerial camera platform..."
  delayMs := 10000
  messages := ["Smoothing cinematic drift...",
    "Matching reference lighting and shadows...",
    "Refining structural geometry lock...",
    "Eliminating drone artifacts...",
    "Optimizing 5-second hero reveal...",
    "Finalizing luxury commercial export..."]
  failMsg := "Aerial capture failed."

/-- Environment of one `generateVeoVideo` run: the outcome of the
submission call, a finite observation window of the operation states the
successive polls would fetch, the stream of random message indices, and
the browser's `URL.createObjectURL`. -/
structure VeoEnv where
  submit : Except JsError Operation
  polls : List Operation
  rand : Nat → Nat
  createObjectURL : String → String

/-- The substring `generateVeoVideo` matches on the submission error. -/
def veoEntityNotFound : String := "Requested entity was not found"

/-- The `while (!operation.done)` loop of `generateVeoVideo`: each
iteration sleeps, re-fetches the operation (consuming the next state from
the observation window), and fires the progress callback with a
randomly-indexed cosmetic message. Returns the first fetched state whose
`done` flag is true (or `none` when the window is exhausted with the flag
still false, the loop still running) together with the event trace. -/
def pollLoopGo (cfg : VeoConfig) (rand : Nat → Nat) (op : Operation)
    (polls : List Operation) (k : Nat) : Option Operation × List VeoEvent :=
  if op.done then (some op, [])
  else
    match polls with
    | [] => (none, [])
    | p :: rest =>
      let msg := cfg.messages.getD (rand k % cfg.messages.length) ("")
      let r := pollLoopGo cfg rand p rest (k + 1)
      (r.1, VeoEvent.sleep cfg.delayMs :: VeoEvent.poll :: VeoEvent.update msg :: r.2)

/-- Core of `generateVeoVideo` (`src/services/geminiService.ts` lines
45-99 and `src/unnamed/part_000` lines 78-128), parameterised by the
variant's constants. Mirrors the source: initial progress update; the
submission call with its error translation (`"Requested entity was not
found"` in the message becomes an `"API_KEY_EXPIRED"` error, anything
else rethrown unchanged); second progress update; the poll loop; then
either the missing-locator failure or the fetch of
`downloadLink&key=API_KEY` turned into an object URL. First component
`none` models the still-running (non-terminating within the window)
loop. -/
def generateVeoVideoWith (cfg : VeoConfig) (apiKey : String)
    (prompt imageBuffer mimeType : String) (env : VeoEnv) :
    Option (Except JsError String) × List VeoEvent :=
  match env.submit with
  | Except.error e =>
      if jsIncludes e.message veoEntityNotFound then
        (some (Except.error ⟨"API_KEY_EXPIRED"⟩), [VeoEvent.update cfg.initMsg])
      else
        (some (Except.error e), [VeoEvent.update cfg.initMsg])
  | Except.ok operation =>
      let pre := [VeoEvent.update cfg.initMsg, VeoEvent.update cfg.flightMsg]
      match pollLoopGo cfg env.rand operation env.polls 0 with
      | (none, evs) => (none, pre ++ evs)
      | (some opF, evs) =>
          match opF.uri with
          | none => (some (Except.error ⟨cfg.failMsg⟩), pre ++ evs)
          | some downloadLink =>
              let url := downloadLink ++ "&key=" ++ apiKey
              (some (Except.ok (env.createObjectURL url)),
                pre ++ evs ++ [VeoEvent.fetchVideo url])

/-- `generateVeoVideo` from `src/services/geminiService.ts` lines 45-99. -/
def generateVeoVideo (apiKey prompt imageBuffer mimeType : String)
    (env : VeoEnv) : Option (Except JsError String) × List VeoEvent :=
  generateVeoVideoWith veoConfigService apiKey prompt imageBuffer mimeType env

/-- `generateVeoVideo` from `src/unnamed/part_000` lines 78-128. -/
def generateVeoVideoP0 (apiKey prompt imageBuffer mimeType : String)
    (env : VeoEnv) : Option (Except JsError String) × List VeoEvent :=
  generateVeoVideoWith veoConfigP0 apiKey prompt imageBuffer mimeType env

/-- The `selectedImage` state of the App component: transport-encoded
bytes plus media type. -/
structure ImageRef where
  data : String
  mimeType : String
deriving DecidableEq

/-- The React state of the App component: the selected image, the
workflow status, and the generation result. -/
structure AppState where
  selectedImage : Option ImageRef
  status : VideoGenerationStatus
  result : Option GenerationResult
deriving DecidableEq

/-- The `useState` initial values of the App component. -/
def initialAppState : AppState where
  selectedImage := none
  status := ⟨Step.idle, "", none⟩
  result := none

/-- The status messages in which the two App variants embedded in
`src/services/geminiService.ts` differ. -/
structure AppConfig where
  analyzingMsg : String
  generatingMsg : String
  completedMsg : String
  keyErrorMsg : String
  genericErrorMsg : String

/-- Messages of the first App variant (`startGeneration` at lines 142-173). -/
def appConfigV1 : AppConfig where
  analyzingMsg := "Director composing 5s hero sequence..."
  generatingMsg := "Generating cinematic master..."
  completedMsg := "Cinema master ready."
  keyErrorMsg := "Select your paid API key and retry."
  genericErrorMsg := "Production interrupted."

/-- Messages of the second App variant (`startGeneration` at lines 385-416). -/
def appConfigV2 : AppConfig where
  analyzingMsg := "Director analyzing reference images..."
  generatingMsg := "Starting drone flight sequence..."
  completedMsg := "Production complete."
  keyErrorMsg := "Please re-select your paid API key and try again."
  genericErrorMsg := "Production interrupted. Check console for details."

/-- Environment of one `startGeneration` run: the result of
`ensureApiKey`, the ambient `process.env.API_KEY`, the text-model call's
outcome, and the video job client's environment. -/
structure GenEnv where
  ensureKey : Bool
  apiKey : String
  director : Except JsError GenContentResponse
  veo : VeoEnv

/-- The error branch of `startGeneration`'s catch: the `API_KEY_EXPIRED`
message selects the credential message, anything else the generic one. -/
def errorStatusFor (cfg : AppConfig) (e : JsError) : VideoGenerationStatus :=
  if e.message = "API_KEY_EXPIRED" then ⟨Step.error, cfg.keyErrorMsg, none⟩
  else ⟨Step.error, cfg.genericErrorMsg, none⟩

/-- The statuses set by the progress callback
`(msg) => setStatus(prev => ({ ...prev, message: msg }))`: each update
event rewrites only the message of the then-current status. -/
def statusOfUpdates (st : VideoGenerationStatus) :
    List VeoEvent → List VideoGenerationStatus
  | [] => []
  | VeoEvent.update m :: rest =>
      { st with message := m } :: statusOfUpdates { st with message := m } rest
  | _ :: rest => statusOfUpdates st rest

/-- The status current after a sequence of `setStatus` values. -/
def lastStatus (st : VideoGenerationStatus) :
    List VideoGenerationStatus → VideoGenerationStatus
  | [] => st
  | x :: rest => lastStatus x rest

/-- `startGeneration` of the App component (`src/services/geminiService.ts`
lines 142-173 and 385-416), parameterised by the variant's messages and by
the service constants it calls. Returns the sequence of React states
produced by each `setStatus`/`setResult` call, and the final state when
the run completes (`none` when the poll loop is still running at the end
of its observation window). Mirrors the source: bail out without an
image or a key; set `analyzing`; run the Prompt Composer; set
`generating`; run the Video Job Client, forwarding its progress messages
into the status; on success store the result then set `completed`; on any
caught error set the `error` status picked by `errorStatusFor`. -/
def startGeneration (cfg : AppConfig) (veoCfg : VeoConfig) (fallback : String)
    (s : AppState) (env : GenEnv) : List AppState × Option AppState :=
  match s.selectedImage with
  | none => ([], some s)
  | some selectedImage =>
    match env.ensureKey with
    | false => ([], some s)
    | true =>
      let s1 : AppState := { s with status := ⟨Step.analyzing, cfg.analyzingMsg, none⟩ }
      match env.director with
      | Except.error e =>
          let s2 := { s1 with status := errorStatusFor cfg e }
          ([s1, s2], some s2)
      | Except.ok response =>
          let directorPrompt :=
            generateDirectorPromptWith fallback selectedImage.data selectedImage.mimeType response
          let st2 : VideoGenerationStatus := ⟨Step.generating, cfg.generatingMsg, none⟩
          let s2 := { s1 with status := st2 }
          let run := generateVeoVideoWith veoCfg env.apiKey directorPrompt
            selectedImage.data selectedImage.mimeType env.veo
          let updStatuses := statusOfUpdates st2 run.2
          let updStates := updStatuses.map (fun st => { s2 with status := st })
          match run.1 with
          | none => (s1 :: s2 :: updStates, none)
          | some (Except.ok videoUrl) =>
              let sR := { s2 with
                status := lastStatus st2 updStatuses
                result := some ⟨videoUrl, directorPrompt⟩ }
              let sC := { sR with status := ⟨Step.completed, cfg.completedMsg, none⟩ }
              (s1 :: s2 :: (updStates ++ [sR, sC]), some sC)
          | some (Except.error e) =>
              let sE := { s2 with status := errorStatusFor cfg e }
              (s1 :: s2 :: (updStates ++ [sE]), some sE)

/-- The payload of a data URL: JavaScript
`(reader.result as string).split(',')[1]` for a string containing a comma
(the characters between the first comma and the next one or the end). -/
def jsSplitCommaSecond (s : String) : String :=
  String.mk (((s.toList.dropWhile (fun c => !(c == ','))).drop 1).takeWhile
    (fun c => !(c == ',')))

/-- A file picked in the upload input: the data URL the `FileReader`
produces and the file's media type. -/
structure UploadFile where
  dataUrl : String
  fileType : String
deriving DecidableEq

/-- `handleImageUpload` of the App component: with no file it does
nothing; with a file it stores the base64 payload and media type as the
selected image and resets the result to null. -/
def handleImageUpload (s : AppState) (file : Option UploadFile) : AppState :=
  match file with
  | none => s
  | some f =>
      { s with
        selectedImage := some ⟨jsSplitCommaSecond f.dataUrl, f.fileType⟩,
        result := none }

/-- Collapse of consecutive repeats, to state "the status moves through
these steps in this order". -/
def collapseRuns : List Step → List Step
  | [] => []
  | [a] => [a]
  | a :: b :: rest =>
      if a = b then collapseRuns (b :: rest) else a :: collapseRuns (b :: rest)

/-- Reachability of App component states: the initial `useState` values,
image upload, the image-clear button (`setSelectedImage(null)`), and
every state set during or at the end of a `startGeneration` run, over
arbitrary variant messages and environments. -/
inductive Reachable : AppState → Prop where
  | init : Reachable initialAppState
  | upload (s : AppState) (file : Option UploadFile) :
      Reachable s → Reachable (handleImageUpload s file)
  | clearImage (s : AppState) : Reachable s →
      Reachable { s with selectedImage := none }
  | genTrace (cfg : AppConfig) (veoCfg : VeoConfig) (fallback : String)
      (s : AppState) (env : GenEnv) (a : AppState) : Reachable s →
      a ∈ (startGeneration cfg veoCfg fallback s env).1 → Reachable a
  | genFinal (cfg : AppConfig) (veoCfg : VeoConfig) (fallback : String)
      (s : AppState) (env : GenEnv) (a : AppState) : Reachable s →
      (startGeneration cfg veoCfg fallback s env).2 = some a → Reachable a

lemma generateDirectorPromptWith_spec (fallback imageBuffer mimeType : String)
    (response : GenContentResponse) (hfb : fallback ≠ "") :
    generateDirectorPromptWith fallback imageBuffer mimeType response ≠ "" ∧
    (∀ t, response.text = some t → jsTrim t ≠ "" →
      generateDirectorPromptWith fallback imageBuffer mimeType response = jsTrim t) ∧
    (∀ t, response.text = some t → jsTrim t = "" →
      generateDirectorPromptWith fallback imageBuffer mimeType response = fallback) ∧
    (response.text = none →
      generateDirectorPromptWith fallback imageBuffer mimeType response = fallback) := by
  unfold generateDirectorPromptWith
  rcases response with ⟨t⟩
  cases t with
  | none => simp [hfb]
  | some t =>
    by_cases h : jsTrim t = "" <;> simp [h, hfb]

/-- C1: for every image buffer and media type, once the hosted text-model
call returns, `generateDirectorPrompt` (both source variants) returns a
non-empty string: the trimmed model text when that is non-empty, and the
variant's fixed fallback string when the response's text field is empty
after trimming or missing. -/
theorem directorPrompt_nonempty_or_fallback (imageBuffer mimeType : String)
    (response : GenContentResponse) :
    (generateDirectorPrompt imageBuffer mimeType response ≠ "" ∧
      (∀ t, response.text = some t → jsTrim t ≠ "" →
        generateDirectorPrompt imageBuffer mimeType response = jsTrim t) ∧
      (∀ t, response.text = some t → jsTrim t = "" →
        generateDirectorPrompt imageBuffer mimeType response = directorFallbackService) ∧
      (response.text = none →
        generateDirectorPrompt imageBuffer mimeType response = directorFallbackService)) ∧
    (generateDirectorPromptP0 imageBuffer mimeType response ≠ "" ∧
      (∀ t, response.text = some t → jsTrim t ≠ "" →
        generateDirectorPromptP0 imageBuffer mimeType response = jsTrim t) ∧
      (∀ t, response.text = some t → jsTrim t = "" →
        generateDirectorPromptP0 imageBuffer mimeType response = directorFallbackP0) ∧
      (response.text = none →
        generateDirectorPromptP0 imageBuffer mimeType response = directorFallbackP0)) := by
  constructor
  · exact generateDirectorPromptWith_spec directorFallbackService imageBuffer mimeType response
      (by decide)
  · exact generateDirectorPromptWith_spec directorFallbackP0 imageBuffer mimeType response
      (by decide)

/-- Witness for C1: on a response whose text field is missing, both variants
return their fixed fallback, which is non-empty. -/
theorem directorPrompt_nonempty_or_fallback_witness :
    generateDirectorPrompt ("imgdata") ("image/jpeg") ⟨none⟩ = directorFallbackService ∧
    generateDirectorPromptP0 ("imgdata") ("image/jpeg") ⟨none⟩ = directorFallbackP0 ∧
    generateDirectorPrompt ("imgdata") ("image/jpeg") ⟨some ("  shot  ")⟩ = "shot" := by
  refine ⟨?_, ?_, ?_⟩
  · exact (directorPrompt_nonempty_or_fallback ("imgdata") ("image/jpeg") ⟨none⟩).1.2.2.2 rfl
  · exact (directorPrompt_nonempty_or_fallback ("imgdata") ("image/jpeg") ⟨none⟩).2.2.2.2 rfl
  · exact (directorPrompt_nonempty_or_fallback ("imgdata") ("image/jpeg")
      ⟨some ("  shot  ")⟩).1.2.1 ("  shot  ") rfl (by decide)

lemma pollLoopGo_done (cfg : VeoConfig) (rand : Nat → Nat) (op : Operation)
    (polls : List Operation) (k : Nat) (h : op.done = true) :
    pollLoopGo cfg rand op polls k = (some op, []) := by
  unfold pollLoopGo
  simp [h]

lemma pollLoopGo_cons (cfg : VeoConfig) (rand : Nat → Nat) (op p : Operation)
    (rest : List Operation) (k : Nat) (hop : op.done = false) :
    pollLoopGo cfg rand op (p :: rest) k =
      ((pollLoopGo cfg rand p rest (k + 1)).1,
        VeoEvent.sleep cfg.delayMs :: VeoEvent.poll ::
          VeoEvent.update (cfg.messages.getD (rand k % cfg.messages.length) ("")) ::
          (pollLoopGo cfg rand p rest (k + 1)).2) := by
  conv_lhs => unfold pollLoopGo
  simp [hop]

lemma pollLoopGo_no_fetch (cfg : VeoConfig) (rand : Nat → Nat) :
    ∀ (polls : List Operation) (op : Operation) (k : Nat) (ev : VeoEvent),
      ev ∈ (pollLoopGo cfg rand op polls k).2 → isFetch ev = false := by
  intro polls
  induction polls with
  | nil =>
    intro op k ev h
    unfold pollLoopGo at h
    by_cases hd : op.done <;> simp [hd] at h
  | cons p rest ih =>
    intro op k ev h
    unfold pollLoopGo at h
    by_cases hd : op.done
    · simp [hd] at h
    · simp [hd] at h
      rcases h with h | h | h | h
      · subst h; rfl
      · subst h; rfl
      · subst h; rfl
      · exact ih p (k + 1) ev h

lemma pollLoopGo_update_eq_poll (cfg : VeoConfig) (rand : Nat → Nat) :
    ∀ (polls : List Operation) (op : Operation) (k : Nat),
      (pollLoopGo cfg rand op polls k).2.countP isUpdate =
        (pollLoopGo cfg rand op polls k).2.countP isPoll := by
  intro polls
  induction polls with
  | nil =>
    intro op k
    unfold pollLoopGo
    by_cases hd : op.done <;> simp [hd]
  | cons p rest ih =>
    intro op k
    unfold pollLoopGo
    by_cases hd : op.done
    · simp [hd]
    · simp [hd, List.countP_cons, isUpdate, isPoll, ih p (k + 1)]

lemma pollLoopGo_stops (cfg : VeoConfig) (rand : Nat → Nat) :
    ∀ (pre : List Operation) (op q : Operation) (rest rest' : List Operation) (k : Nat),
      (∀ p ∈ pre, p.done = false) → q.done = true → op.done = false →
      (pollLoopGo cfg rand op (pre ++ q :: rest) k).1 = some q ∧
      (pollLoopGo cfg rand op (pre ++ q :: rest) k).2.countP isPoll = pre.length + 1 ∧
      pollLoopGo cfg rand op (pre ++ q :: rest) k =
        pollLoopGo cfg rand op (pre ++ q :: rest') k := by
  intro pre
  induction pre with
  | nil =>
    intro op q rest rest' k hpre hq hop
    have hmain : ∀ (tail : List Operation),
        pollLoopGo cfg rand op (q :: tail) k =
          (some q, [VeoEvent.sleep cfg.delayMs, VeoEvent.poll,
            VeoEvent.update (cfg.messages.getD (rand k % cfg.messages.length) (""))]) := by
      intro tail
      rw [pollLoopGo_cons cfg rand op q tail k hop,
        pollLoopGo_done cfg rand q tail (k + 1) hq]
    simp [hmain rest, hmain rest', List.countP_cons, isPoll]
  | cons a pre' ih =>
    intro op q rest rest' k hpre hq hop
    have ha : a.done = false := hpre a (List.mem_cons_self a pre')
    have hpre' : ∀ p ∈ pre', p.done = false := fun p hp => hpre p (List.mem_cons_of_mem a hp)
    have hstep : ∀ (tail : List Operation),
        pollLoopGo cfg rand op (a :: tail) k =
          ((pollLoopGo cfg rand a tail (k + 1)).1,
            VeoEvent.sleep cfg.delayMs :: VeoEvent.poll ::
              VeoEvent.update (cfg.messages.getD (rand k % cfg.messages.length) ("")) ::
              (pollLoopGo cfg rand a tail (k + 1)).2) := by
      intro tail
      exact pollLoopGo_cons cfg rand op a tail k hop
    obtain ⟨h1, h2, h3⟩ := ih a q rest rest' (k + 1) hpre' hq ha
    refine ⟨?_, ?_, ?_⟩
    · simpa [hstep (pre' ++ q :: rest)] using h1
    · simp [hstep (pre' ++ q :: rest), List.countP_cons, isPoll, h2]
    · simp only [List.cons_append, hstep (pre' ++ q :: rest), hstep (pre' ++ q :: rest'), h3]

/-- C3: in the poll loop of `generateVeoVideo`, the progress callback is
invoked exactly once per iteration (the number of `update` events equals
the number of `poll` events), and as soon as a fetched operation reports
`done = true` the loop exits: an already-done operation is never polled,
the first fetched done state is the loop's result, the poll count is the
index of that state plus one, and the run is insensitive to any operation
states after the first done one (no further polls occur). -/
theorem pollLoop_callback_each_iteration_and_exit (cfg : VeoConfig)
    (rand : Nat → Nat) (op q : Operation) (pre rest rest' : List Operation)
    (hpre : ∀ p ∈ pre, p.done = false) (hq : q.done = true) :
    ((pollLoopGo cfg rand op (pre ++ q :: rest) 0).2.countP isUpdate =
      (pollLoopGo cfg rand op (pre ++ q :: rest) 0).2.countP isPoll) ∧
    (op.done = true → pollLoopGo cfg rand op (pre ++ q :: rest) 0 = (some op, [])) ∧
    (op.done = false →
      (pollLoopGo cfg rand op (pre ++ q :: rest) 0).1 = some q ∧
      (pollLoopGo cfg rand op (pre ++ q :: rest) 0).2.countP isPoll = pre.length + 1 ∧
      pollLoopGo cfg rand op (pre ++ q :: rest) 0 =
        pollLoopGo cfg rand op (pre ++ q :: rest') 0) := by
  refine ⟨pollLoopGo_update_eq_poll cfg rand _ op 0, ?_, ?_⟩
  · intro hd
    exact pollLoopGo_done cfg rand op _ 0 hd
  · intro hd
    exact pollLoopGo_stops cfg rand pre op q rest rest' 0 hpre hq hd

/-- Witness for C3: a loop over two pending states followed by a done
state polls exactly three times with three callback invocations, and its
outcome does not change when further states are appended. -/
theorem pollLoop_callback_each_iteration_and_exit_witness :
    ((pollLoopGo veoConfigService (fun _ => 0) ⟨false, none⟩
        ([⟨false, none⟩, ⟨false, none⟩] ++ ⟨true, some ("u")⟩ :: []) 0).2.countP isUpdate =
      (pollLoopGo veoConfigService (fun _ => 0) ⟨false, none⟩
        ([⟨false, none⟩, ⟨false, none⟩] ++ ⟨true, some ("u")⟩ :: []) 0).2.countP isPoll) ∧
    ((pollLoopGo veoConfigService (fun _ => 0) ⟨false, none⟩
        ([⟨false, none⟩, ⟨false, none⟩] ++ ⟨true, some ("u")⟩ :: []) 0).1 = some ⟨true, some ("u")⟩ ∧
      (pollLoopGo veoConfigService (fun _ => 0) ⟨false, none⟩
        ([⟨false, none⟩, ⟨false, none⟩] ++ ⟨true, some ("u")⟩ :: []) 0).2.countP isPoll = 3 ∧
      pollLoopGo veoConfigService (fun _ => 0) ⟨false, none⟩
        ([⟨false, none⟩, ⟨false, none⟩] ++ ⟨true, some ("u")⟩ :: []) 0 =
        pollLoopGo veoConfigService (fun _ => 0) ⟨false, none⟩
          ([⟨false, none⟩, ⟨false, none⟩] ++ ⟨true, some ("u")⟩ :: [⟨false, none⟩]) 0) := by
  have h := pollLoop_callback_each_iteration_and_exit veoConfigService (fun _ => 0)
    ⟨false, none⟩ ⟨true, some ("u")⟩ [⟨false, none⟩, ⟨false, none⟩] [] [⟨false, none⟩]
    (by decide) rfl
  exact ⟨h.1, h.2.2 rfl⟩

/-- C5: the poll loop of `generateVeoVideo` terminates if and only if some
fetched operation state (or the submitted one) eventually reports
completion: over every finite observation window of fetched states, the
loop has exited within the window exactly when the initial operation is
done or some state in the window is done; on a window in which `done` is
never true — of any length, there being no iteration bound or timeout —
the loop is still running at the window's end. -/
theorem pollLoop_terminates_iff_eventually_done (cfg : VeoConfig)
    (rand : Nat → Nat) (polls : List Operation) (op : Operation) (k : Nat) :
    (pollLoopGo cfg rand op polls k).1.isSome = true ↔
      (op.done = true ∨ ∃ p ∈ polls, p.done = true) := by
  induction polls generalizing op k with
  | nil =>
    unfold pollLoopGo
    by_cases hd : op.done <;> simp [hd]
  | cons p rest ih =>
    unfold pollLoopGo
    by_cases hd : op.done
    · simp [hd]
    · simp [hd, ih]

/-- Witness for C5: the loop exits on a window containing a done state and
is still running at the end of a window of three never-done states. -/
theorem pollLoop_terminates_iff_eventually_done_witness :
    (pollLoopGo veoConfigService (fun _ => 0) ⟨false, none⟩
      [⟨false, none⟩, ⟨true, some ("u")⟩] 0).1.isSome = true ∧
    ¬ (pollLoopGo veoConfigService (fun _ => 0) ⟨false, none⟩
      [⟨false, none⟩, ⟨false, none⟩, ⟨false, none⟩] 0).1.isSome = true := by
  constructor
  · exact (pollLoop_terminates_iff_eventually_done veoConfigService (fun _ => 0)
      [⟨false, none⟩, ⟨true, some ("u")⟩] ⟨false, none⟩ 0).mpr
      (Or.inr ⟨⟨true, some ("u")⟩, by decide, rfl⟩)
  · intro h
    have h2 := (pollLoop_terminates_iff_eventually_done veoConfigService (fun _ => 0)
      [⟨false, none⟩, ⟨false, none⟩, ⟨false, none⟩] ⟨false, none⟩ 0).mp h
    revert h2
    decide

/-- C2: for every error thrown by the submission call inside
`generateVeoVideo` (both source variants, covered by the parameterised
core): if its message contains the substring `"Requested entity was not
found"`, the function raises an error with message `"API_KEY_EXPIRED"`
instead of the raw error; every other submission error propagates
unmodified. -/
theorem veo_submit_error_translation (cfg : VeoConfig)
    (apiKey prompt imageBuffer mimeType : String) (env : VeoEnv) (e : JsError)
    (hsub : env.submit = Except.error e) :
    (jsIncludes e.message veoEntityNotFound = true →
      generateVeoVideoWith cfg apiKey prompt imageBuffer mimeType env =
        (some (Except.error ⟨"API_KEY_EXPIRED"⟩), [VeoEvent.update cfg.initMsg])) ∧
    (jsIncludes e.message veoEntityNotFound = false →
      generateVeoVideoWith cfg apiKey prompt imageBuffer mimeType env =
        (some (Except.error e), [VeoEvent.update cfg.initMsg])) := by
  unfold generateVeoVideoWith
  rw [hsub]
  constructor
  · intro h; simp [h]
  · intro h; simp [h]

/-- Witness for C2: a submission error whose message contains the
substring is replaced by the `API_KEY_EXPIRED` signal; a `"boom"` error
propagates unchanged. -/
theorem veo_submit_error_translation_witness :
    generateVeoVideoWith veoConfigService ("k") ("p") ("img") ("image/png")
      ⟨Except.error ⟨"oops: Requested entity was not found."⟩, [], fun _ => 0, id⟩ =
      (some (Except.error ⟨"API_KEY_EXPIRED"⟩),
        [VeoEvent.update veoConfigService.initMsg]) ∧
    generateVeoVideoWith veoConfigService ("k") ("p") ("img") ("image/png")
      ⟨Except.error ⟨"boom"⟩, [], fun _ => 0, id⟩ =
      (some (Except.error ⟨"boom"⟩), [VeoEvent.update veoConfigService.initMsg]) := by
  constructor
  · exact (veo_submit_error_translation veoConfigService ("k") ("p") ("img") ("image/png")
      ⟨Except.error ⟨"oops: Requested entity was not found."⟩, [], fun _ => 0, id⟩
      ⟨"oops: Requested entity was not found."⟩ rfl).1 (by decide)
  · exact (veo_submit_error_translation veoConfigService ("k") ("p") ("img") ("image/png")
      ⟨Except.error ⟨"boom"⟩, [], fun _ => 0, id⟩ ⟨"boom"⟩ rfl).2 (by decide)

/-- C4: when the poll loop of `generateVeoVideo` ends at an operation that
reports `done = true` but exposes no generated-video locator, the function
raises an error with the variant's fixed failure message and its event
trace contains no video fetch; the fixed messages of the two source
variants are `"Video generation failed to return a URI."` and
`"Aerial capture failed."`. -/
theorem veo_missing_uri_fails_without_fetch (cfg : VeoConfig)
    (apiKey prompt imageBuffer mimeType : String) (env : VeoEnv)
    (op opF : Operation) (evs : List VeoEvent)
    (hsub : env.submit = Except.ok op)
    (hloop : pollLoopGo cfg env.rand op env.polls 0 = (some opF, evs))
    (huri : opF.uri = none) :
    generateVeoVideoWith cfg apiKey prompt imageBuffer mimeType env =
      (some (Except.error ⟨cfg.failMsg⟩),
        VeoEvent.update cfg.initMsg :: VeoEvent.update cfg.flightMsg :: evs) ∧
    (∀ ev ∈ (generateVeoVideoWith cfg apiKey prompt imageBuffer mimeType env).2,
      isFetch ev = false) ∧
    veoConfigService.failMsg = "Video generation failed to return a URI." ∧
    veoConfigP0.failMsg = "Aerial capture failed." := by
  have hres : generateVeoVideoWith cfg apiKey prompt imageBuffer mimeType env =
      (some (Except.error ⟨cfg.failMsg⟩),
        VeoEvent.update cfg.initMsg :: VeoEvent.update cfg.flightMsg :: evs) := by
    unfold generateVeoVideoWith
    rw [hsub]
    dsimp only
    rw [hloop]
    dsimp only
    rw [huri]
    rfl
  refine ⟨hres, ?_, rfl, rfl⟩
  intro ev hev
  rw [hres] at hev
  simp only [List.mem_cons] at hev
  rcases hev with h | h | h
  · subst h; rfl
  · subst h; rfl
  · exact pollLoopGo_no_fetch cfg env.rand env.polls op 0 ev (by rw [hloop]; exact h)

/-- Witness for C4: a run whose single poll returns a done operation with
no locator fails with the fixed message and fetches nothing. -/
theorem veo_missing_uri_fails_without_fetch_witness :
    generateVeoVideoWith veoConfigService ("k") ("p") ("img") ("image/png")
      ⟨Except.ok ⟨false, none⟩, [⟨true, none⟩], fun _ => 0, id⟩ =
      (some (Except.error ⟨veoConfigService.failMsg⟩),
        VeoEvent.update veoConfigService.initMsg ::
          VeoEvent.update veoConfigService.flightMsg ::
          [VeoEvent.sleep 8000, VeoEvent.poll,
            VeoEvent.update ("Stabilizing gimbal trajectory...")]) ∧
    veoConfigP0.failMsg = "Aerial capture failed." := by
  have h := veo_missing_uri_fails_without_fetch veoConfigService ("k") ("p") ("img") ("image/png")
    ⟨Except.ok ⟨false, none⟩, [⟨true, none⟩], fun _ => 0, id⟩
    ⟨false, none⟩ ⟨true, none⟩
    [VeoEvent.sleep 8000, VeoEvent.poll, VeoEvent.update ("Stabilizing gimbal trajectory...")]
    rfl (by decide) rfl
  exact ⟨h.1, h.2.2.2⟩

lemma statusOfUpdates_step :
    ∀ (evs : List VeoEvent) (st : VideoGenerationStatus)
      (x : VideoGenerationStatus), x ∈ statusOfUpdates st evs → x.step = st.step := by
  intro evs
  induction evs with
  | nil => intro st x hx; simp [statusOfUpdates] at hx
  | cons ev rest ih =>
    intro st x hx
    cases ev with
    | update m =>
      rw [statusOfUpdates] at hx
      rcases List.mem_cons.mp hx with h | h
      · subst h; rfl
      · exact ih { st with message := m } x h
    | sleep ms => exact ih st x hx
    | poll => exact ih st x hx
    | fetchVideo u => exact ih st x hx

lemma lastStatus_step :
    ∀ (l : List VideoGenerationStatus) (st : VideoGenerationStatus),
      (∀ x ∈ l, x.step = st.step) → (lastStatus st l).step = st.step := by
  intro l
  induction l with
  | nil => intro st _; rfl
  | cons x rest ih =>
    intro st h
    have hx : x.step = st.step := h x (List.mem_cons_self x rest)
    have := ih x (fun y hy => by
      rw [h y (List.mem_cons_of_mem x hy), ← hx])
    rw [lastStatus, this, hx]

lemma errorStatusFor_step (cfg : AppConfig) (e : JsError) :
    (errorStatusFor cfg e).step = Step.error := by
  unfold errorStatusFor
  split <;> rfl

lemma generateVeoVideoWith_ok (cfg : VeoConfig) (apiKey prompt imageBuffer mimeType : String)
    (env : VeoEnv) (op opF : Operation) (evs : List VeoEvent) (L : String)
    (hsub : env.submit = Except.ok op)
    (hloop : pollLoopGo cfg env.rand op env.polls 0 = (some opF, evs))
    (huri : opF.uri = some L) :
    generateVeoVideoWith cfg apiKey prompt imageBuffer mimeType env =
      (some (Except.ok (env.createObjectURL (L ++ "&key=" ++ apiKey))),
        VeoEvent.update cfg.initMsg :: VeoEvent.update cfg.flightMsg ::
          (evs ++ [VeoEvent.fetchVideo (L ++ "&key=" ++ apiKey)])) := by
  unfold generateVeoVideoWith
  rw [hsub]
  dsimp only
  rw [hloop]
  dsimp only
  rw [huri]
  rfl

lemma collapseRuns_cons_ne (a b : Step) (rest : List Step) (h : ¬ a = b) :
    collapseRuns (a :: b :: rest) = a :: collapseRuns (b :: rest) := by
  conv_lhs => unfold collapseRuns
  simp [h]

lemma collapseRuns_cons_eq (a b : Step) (rest : List Step) (h : a = b) :
    collapseRuns (a :: b :: rest) = collapseRuns (b :: rest) := by
  conv_lhs => unfold collapseRuns
  simp [h]

lemma collapseRuns_gen_tail :
    ∀ (mid : List Step), (∀ x ∈ mid, x = Step.generating) →
      collapseRuns (Step.generating :: (mid ++ [Step.completed])) =
        [Step.generating, Step.completed] := by
  intro mid
  induction mid with
  | nil => intro _; decide
  | cons a mid' ih =>
    intro h
    have ha : a = Step.generating := h a (List.mem_cons_self a mid')
    subst ha
    rw [List.cons_append, collapseRuns_cons_eq _ _ _ rfl]
    exact ih (fun x hx => h x (List.mem_cons_of_mem _ hx))

lemma collapseRuns_idle_shape (mid : List Step)
    (h : ∀ x ∈ mid, x = Step.generating) :
    collapseRuns (Step.idle :: Step.analyzing :: Step.generating ::
        (mid ++ [Step.completed])) =
      [Step.idle, Step.analyzing, Step.generating, Step.completed] := by
  rw [collapseRuns_cons_ne _ _ _ (by decide), collapseRuns_cons_ne _ _ _ (by decide),
    collapseRuns_gen_tail mid h]

lemma startGeneration_ok_eq (cfg : AppConfig) (veoCfg : VeoConfig) (fallback : String)
    (s : AppState) (env : GenEnv) (img : ImageRef) (response : GenContentResponse)
    (op opF : Operation) (evs : List VeoEvent) (L : String)
    (himg : s.selectedImage = some img)
    (hkey : env.ensureKey = true)
    (hdir : env.director = Except.ok response)
    (hsub : env.veo.submit = Except.ok op)
    (hloop : pollLoopGo veoCfg env.veo.rand op env.veo.polls 0 = (some opF, evs))
    (huri : opF.uri = some L) :
    startGeneration cfg veoCfg fallback s env =
      ({ s with status := ⟨Step.analyzing, cfg.analyzingMsg, none⟩ } ::
        { s with status := ⟨Step.generating, cfg.generatingMsg, none⟩ } ::
        (((statusOfUpdates ⟨Step.generating, cfg.generatingMsg, none⟩
              (VeoEvent.update veoCfg.initMsg :: VeoEvent.update veoCfg.flightMsg ::
                (evs ++ [VeoEvent.fetchVideo (L ++ "&key=" ++ env.apiKey)]))).map
            (fun st => { s with status := st })) ++
          [{ s with
              status := lastStatus ⟨Step.generating, cfg.generatingMsg, none⟩
                (statusOfUpdates ⟨Step.generating, cfg.generatingMsg, none⟩
                  (VeoEvent.update veoCfg.initMsg :: VeoEvent.update veoCfg.flightMsg ::
                    (evs ++ [VeoEvent.fetchVideo (L ++ "&key=" ++ env.apiKey)])))
              result := some ⟨env.veo.createObjectURL (L ++ "&key=" ++ env.apiKey),
                generateDirectorPromptWith fallback img.data img.mimeType response⟩ },
           { s with
              status := ⟨Step.completed, cfg.completedMsg, none⟩
              result := some ⟨env.veo.createObjectURL (L ++ "&key=" ++ env.apiKey),
                generateDirectorPromptWith fallback img.data img.mimeType response⟩ }]),
        some { s with
          status := ⟨Step.completed, cfg.completedMsg, none⟩
          result := some ⟨env.veo.createObjectURL (L ++ "&key=" ++ env.apiKey),
            generateDirectorPromptWith fallback img.data img.mimeType response⟩ }) := by
  have hrun := generateVeoVideoWith_ok veoCfg env.apiKey
    (generateDirectorPromptWith fallback img.data img.mimeType response)
    img.data img.mimeType env.veo op opF evs L hsub hloop huri
  unfold startGeneration
  rw [himg]
  dsimp only
  rw [hkey]
  dsimp only
  rw [hdir]
  dsimp only
  rw [hrun]

/-- C6: on the successful end-to-end path — an image selected, the key
ensured, the text model returning a response, submission yielding an
operation, the poll loop completing at an operation carrying locator `L` —
`startGeneration` drives the status steps through
idle → analyzing → generating → completed in that order (consecutive
repeats collapsed), and the final state holds the Generation Result
pairing the object URL derived from `L` (with the API key appended) with
exactly the director prompt the Prompt Composer returned. -/
theorem startGeneration_success_path (cfg : AppConfig) (veoCfg : VeoConfig)
    (fallback : String) (s : AppState) (env : GenEnv) (img : ImageRef)
    (response : GenContentResponse) (op opF : Operation) (evs : List VeoEvent)
    (L : String)
    (himg : s.selectedImage = some img)
    (hidle : s.status.step = Step.idle)
    (hkey : env.ensureKey = true)
    (hdir : env.director = Except.ok response)
    (hsub : env.veo.submit = Except.ok op)
    (hloop : pollLoopGo veoCfg env.veo.rand op env.veo.polls 0 = (some opF, evs))
    (huri : opF.uri = some L) :
    (startGeneration cfg veoCfg fallback s env).2 =
      some { s with
        status := ⟨Step.completed, cfg.completedMsg, none⟩
        result := some ⟨env.veo.createObjectURL (L ++ "&key=" ++ env.apiKey),
          generateDirectorPromptWith fallback img.data img.mimeType response⟩ } ∧
    collapseRuns (s.status.step ::
        (startGeneration cfg veoCfg fallback s env).1.map (fun a => a.status.step)) =
      [Step.idle, Step.analyzing, Step.generating, Step.completed] := by
  have heq := startGeneration_ok_eq cfg veoCfg fallback s env img response op opF evs L
    himg hkey hdir hsub hloop huri
  constructor
  · rw [heq]
  · rw [heq, hidle]
    simp only [List.map_cons, List.map_append, List.map_map, List.map_nil]
    have hcomp : ((fun a : AppState => a.status.step) ∘
        (fun st : VideoGenerationStatus =>
          { selectedImage := s.selectedImage, status := st, result := s.result })) =
        (fun st : VideoGenerationStatus => st.step) := rfl
    rw [hcomp]
    have hG : ∀ x ∈ (statusOfUpdates ⟨Step.generating, cfg.generatingMsg, none⟩
        (VeoEvent.update veoCfg.initMsg :: VeoEvent.update veoCfg.flightMsg ::
          (evs ++ [VeoEvent.fetchVideo (L ++ "&key=" ++ env.apiKey)]))).map
          (fun st : VideoGenerationStatus => st.step), x = Step.generating := by
      intro x hx
      rcases List.mem_map.mp hx with ⟨st, hst, rfl⟩
      exact statusOfUpdates_step _ _ st hst
    have hL : (lastStatus ⟨Step.generating, cfg.generatingMsg, none⟩
        (statusOfUpdates ⟨Step.generating, cfg.generatingMsg, none⟩
          (VeoEvent.update veoCfg.initMsg :: VeoEvent.update veoCfg.flightMsg ::
            (evs ++ [VeoEvent.fetchVideo (L ++ "&key=" ++ env.apiKey)])))).step =
        Step.generating :=
      lastStatus_step _ _ (fun x hx => statusOfUpdates_step _ _ x hx)
    rw [hL]
    have hre : ∀ (G : List Step), G ++ [Step.generating, Step.completed] =
        (G ++ [Step.generating]) ++ [Step.completed] := by
      intro G; simp
    rw [hre]
    refine collapseRuns_idle_shape _ ?_
    intro x hx
    rcases List.mem_append.mp hx with h | h
    · exact hG x h
    · simpa using h

/-- Witness for C6: a concrete idle state with a selected image and a run
whose single poll completes with locator `http://v` ends completed with
the result pairing `http://v&key=KEY` with the returned prompt, the steps
moving through idle, analyzing, generating, completed. -/
theorem startGeneration_success_path_witness :
    (startGeneration appConfigV1 veoConfigService directorFallbackService
        ⟨some ⟨"img", "image/jpeg"⟩, ⟨Step.idle, "", none⟩, none⟩
        ⟨true, "KEY", Except.ok ⟨some ("A hero shot")⟩,
          ⟨Except.ok ⟨false, none⟩, [⟨true, some ("http://v")⟩], fun _ => 0, id⟩⟩).2 =
      some ⟨some ⟨"img", "image/jpeg"⟩, ⟨Step.completed, "Cinema master ready.", none⟩,
        some ⟨"http://v&key=KEY", "A hero shot"⟩⟩ ∧
    collapseRuns (Step.idle ::
        (startGeneration appConfigV1 veoConfigService directorFallbackService
          ⟨some ⟨"img", "image/jpeg"⟩, ⟨Step.idle, "", none⟩, none⟩
          ⟨true, "KEY", Except.ok ⟨some ("A hero shot")⟩,
            ⟨Except.ok ⟨false, none⟩, [⟨true, some ("http://v")⟩], fun _ => 0, id⟩⟩).1.map
          (fun a => a.status.step)) =
      [Step.idle, Step.analyzing, Step.generating, Step.completed] := by
  have h := startGeneration_success_path appConfigV1 veoConfigService directorFallbackService
    ⟨some ⟨"img", "image/jpeg"⟩, ⟨Step.idle, "", none⟩, none⟩
    ⟨true, "KEY", Except.ok ⟨some ("A hero shot")⟩,
      ⟨Except.ok ⟨false, none⟩, [⟨true, some ("http://v")⟩], fun _ => 0, id⟩⟩
    ⟨"img", "image/jpeg"⟩ ⟨some ("A hero shot")⟩ ⟨false, none⟩ ⟨true, some ("http://v")⟩
    [VeoEvent.sleep 8000, VeoEvent.poll, VeoEvent.update ("Stabilizing gimbal trajectory...")]
    "http://v" rfl rfl rfl rfl rfl (by decide) rfl
  exact ⟨h.1, h.2⟩

/-- C7: when the submitted video-generation call throws an error whose
message contains "Requested entity was not found", `startGeneration` ends
in the error status carrying the credential message; any other submission
error, and any text-model error, ends in the error status carrying the
generic message; in both App variants the credential message differs from
the generic one. -/
theorem startGeneration_key_expired_message (cfg : AppConfig) (veoCfg : VeoConfig)
    (fallback : String) (s : AppState) (env : GenEnv) (img : ImageRef)
    (response : GenContentResponse) (e : JsError)
    (himg : s.selectedImage = some img)
    (hkey : env.ensureKey = true)
    (hdir : env.director = Except.ok response)
    (hsub : env.veo.submit = Except.error e)
    (hinc : jsIncludes e.message veoEntityNotFound = true) :
    ((startGeneration cfg veoCfg fallback s env).2.map (fun a => a.status)) =
      some ⟨Step.error, cfg.keyErrorMsg, none⟩ ∧
    (∀ (e2 : JsError) (env2 : GenEnv),
      jsIncludes e2.message veoEntityNotFound = false →
      e2.message ≠ "API_KEY_EXPIRED" →
      env2.ensureKey = true → env2.director = Except.ok response →
      env2.veo.submit = Except.error e2 →
      ((startGeneration cfg veoCfg fallback s env2).2.map (fun a => a.status)) =
        some ⟨Step.error, cfg.genericErrorMsg, none⟩) ∧
    (∀ (e3 : JsError) (env3 : GenEnv),
      e3.message ≠ "API_KEY_EXPIRED" →
      env3.ensureKey = true → env3.director = Except.error e3 →
      ((startGeneration cfg veoCfg fallback s env3).2.map (fun a => a.status)) =
        some ⟨Step.error, cfg.genericErrorMsg, none⟩) ∧
    appConfigV1.keyErrorMsg ≠ appConfigV1.genericErrorMsg ∧
    appConfigV2.keyErrorMsg ≠ appConfigV2.genericErrorMsg := by
  refine ⟨?_, ?_, ?_, by decide, by decide⟩
  · have hrun := (veo_submit_error_translation veoCfg env.apiKey
      (generateDirectorPromptWith fallback img.data img.mimeType response)
      img.data img.mimeType env.veo e hsub).1 hinc
    unfold startGeneration
    rw [himg]
    dsimp only
    rw [hkey]
    dsimp only
    rw [hdir]
    dsimp only
    rw [hrun]
    dsimp only
    simp [errorStatusFor]
  · intro e2 env2 hninc hne hkey2 hdir2 hsub2
    have hrun := (veo_submit_error_translation veoCfg env2.apiKey
      (generateDirectorPromptWith fallback img.data img.mimeType response)
      img.data img.mimeType env2.veo e2 hsub2).2 hninc
    unfold startGeneration
    rw [himg]
    dsimp only
    rw [hkey2]
    dsimp only
    rw [hdir2]
    dsimp only
    rw [hrun]
    dsimp only
    simp [errorStatusFor, hne]
  · intro e3 env3 hne hkey3 hdir3
    unfold startGeneration
    rw [himg]
    dsimp only
    rw [hkey3]
    dsimp only
    rw [hdir3]
    dsimp only
    simp [errorStatusFor, hne]

/-- Witness for C7: a concrete submission error containing the substring
yields the credential message of the first variant. -/
theorem startGeneration_key_expired_message_witness :
    ((startGeneration appConfigV1 veoConfigService directorFallbackService
        ⟨some ⟨"img", "image/jpeg"⟩, ⟨Step.idle, "", none⟩, none⟩
        ⟨true, "KEY", Except.ok ⟨some ("A hero shot")⟩,
          ⟨Except.error ⟨"Requested entity was not found"⟩, [], fun _ => 0, id⟩⟩).2.map
        (fun a => a.status)) =
      some ⟨Step.error, "Select your paid API key and retry.", none⟩ := by
  have h := startGeneration_key_expired_message appConfigV1 veoConfigService
    directorFallbackService
    ⟨some ⟨"img", "image/jpeg"⟩, ⟨Step.idle, "", none⟩, none⟩
    ⟨true, "KEY", Except.ok ⟨some ("A hero shot")⟩,
      ⟨Except.error ⟨"Requested entity was not found"⟩, [], fun _ => 0, id⟩⟩
    ⟨"img", "image/jpeg"⟩ ⟨some ("A hero shot")⟩ ⟨"Requested entity was not found"⟩
    rfl rfl rfl rfl (by decide)
  exact h.1

lemma startGeneration_cases (cfg : AppConfig) (veoCfg : VeoConfig) (fallback : String)
    (s : AppState) (env : GenEnv) :
    startGeneration cfg veoCfg fallback s env = ([], some s) ∨
    (∃ e : JsError,
      startGeneration cfg veoCfg fallback s env =
        ([{ s with status := ⟨Step.analyzing, cfg.analyzingMsg, none⟩ },
          { s with status := errorStatusFor cfg e }],
         some { s with status := errorStatusFor cfg e })) ∨
    (∃ updStatuses : List VideoGenerationStatus,
      (∀ x ∈ updStatuses, x.step = Step.generating) ∧
      startGeneration cfg veoCfg fallback s env =
        ({ s with status := ⟨Step.analyzing, cfg.analyzingMsg, none⟩ } ::
          { s with status := ⟨Step.generating, cfg.generatingMsg, none⟩ } ::
          updStatuses.map (fun st => { s with status := st }), none)) ∨
    (∃ (updStatuses : List VideoGenerationStatus) (stR : VideoGenerationStatus)
        (url P : String),
      (∀ x ∈ updStatuses, x.step = Step.generating) ∧
      stR.step = Step.generating ∧
      startGeneration cfg veoCfg fallback s env =
        ({ s with status := ⟨Step.analyzing, cfg.analyzingMsg, none⟩ } ::
          { s with status := ⟨Step.generating, cfg.generatingMsg, none⟩ } ::
          (updStatuses.map (fun st => { s with status := st }) ++
            [{ s with
                status := stR
                result := some ⟨url, P⟩ },
             { s with
                status := ⟨Step.completed, cfg.completedMsg, none⟩
                result := some ⟨url, P⟩ }]),
         some { s with
            status := ⟨Step.completed, cfg.completedMsg, none⟩
            result := some ⟨url, P⟩ })) ∨
    (∃ (updStatuses : List VideoGenerationStatus) (e : JsError),
      (∀ x ∈ updStatuses, x.step = Step.generating) ∧
      startGeneration cfg veoCfg fallback s env =
        ({ s with status := ⟨Step.analyzing, cfg.analyzingMsg, none⟩ } ::
          { s with status := ⟨Step.generating, cfg.generatingMsg, none⟩ } ::
          (updStatuses.map (fun st => { s with status := st }) ++
            [{ s with status := errorStatusFor cfg e }]),
         some { s with status := errorStatusFor cfg e })) := by
  rcases hsel : s.selectedImage with _ | img
  · left
    unfold startGeneration
    rw [hsel]
  rcases hkeyv : env.ensureKey with _ | _
  · left
    unfold startGeneration
    rw [hsel]
    dsimp only
    rw [hkeyv]
  rcases hdir : env.director with e | response
  · right; left
    refine ⟨e, ?_⟩
    unfold startGeneration
    rw [hsel]
    dsimp only
    rw [hkeyv]
    dsimp only
    rw [hdir]
  · have hupd : ∀ x ∈ statusOfUpdates ⟨Step.generating, cfg.generatingMsg, none⟩
        (generateVeoVideoWith veoCfg env.apiKey
          (generateDirectorPromptWith fallback img.data img.mimeType response)
          img.data img.mimeType env.veo).2, x.step = Step.generating :=
      fun x hx => statusOfUpdates_step _ _ x hx
    rcases hrun1 : (generateVeoVideoWith veoCfg env.apiKey
        (generateDirectorPromptWith fallback img.data img.mimeType response)
        img.data img.mimeType env.veo).1 with _ | res
    · right; right; left
      refine ⟨statusOfUpdates ⟨Step.generating, cfg.generatingMsg, none⟩
        (generateVeoVideoWith veoCfg env.apiKey
          (generateDirectorPromptWith fallback img.data img.mimeType response)
          img.data img.mimeType env.veo).2, hupd, ?_⟩
      unfold startGeneration
      rw [hsel]
      dsimp only
      rw [hkeyv]
      dsimp only
      rw [hdir]
      dsimp only
      rw [hrun1]
    rcases res with e | url
    · right; right; right; right
      refine ⟨statusOfUpdates ⟨Step.generating, cfg.generatingMsg, none⟩
        (generateVeoVideoWith veoCfg env.apiKey
          (generateDirectorPromptWith fallback img.data img.mimeType response)
          img.data img.mimeType env.veo).2, e, hupd, ?_⟩
      unfold startGeneration
      rw [hsel]
      dsimp only
      rw [hkeyv]
      dsimp only
      rw [hdir]
      dsimp only
      rw [hrun1]
    · right; right; right; left
      refine ⟨statusOfUpdates ⟨Step.generating, cfg.generatingMsg, none⟩
        (generateVeoVideoWith veoCfg env.apiKey
          (generateDirectorPromptWith fallback img.data img.mimeType response)
          img.data img.mimeType env.veo).2,
        lastStatus ⟨Step.generating, cfg.generatingMsg, none⟩
          (statusOfUpdates ⟨Step.generating, cfg.generatingMsg, none⟩
            (generateVeoVideoWith veoCfg env.apiKey
              (generateDirectorPromptWith fallback img.data img.mimeType response)
              img.data img.mimeType env.veo).2),
        url,
        generateDirectorPromptWith fallback img.data img.mimeType response,
        hupd, lastStatus_step _ _ hupd, ?_⟩
      unfold startGeneration
      rw [hsel]
      dsimp only
      rw [hkeyv]
      dsimp only
      rw [hdir]
      dsimp only
      rw [hrun1]

lemma startGeneration_steps_bound (cfg : AppConfig) (veoCfg : VeoConfig)
    (fallback : String) (s : AppState) (env : GenEnv) :
    (∀ a ∈ (startGeneration cfg veoCfg fallback s env).1,
      a.status.step = Step.analyzing ∨ a.status.step = Step.generating ∨
        a.status.step = Step.completed ∨ a.status.step = Step.error) ∧
    (∀ a, (startGeneration cfg veoCfg fallback s env).2 = some a →
      a = s ∨ a.status.step = Step.completed ∨ a.status.step = Step.error) := by
  rcases startGeneration_cases cfg veoCfg fallback s env with
    h | ⟨e, h⟩ | ⟨G, hG, h⟩ | ⟨G, stR, url, P, hG, hR, h⟩ | ⟨G, e, hG, h⟩ <;> rw [h]
  · refine ⟨?_, ?_⟩
    · intro a ha
      simp at ha
    · intro a ha
      simp at ha
      exact Or.inl ha.symm
  · refine ⟨?_, ?_⟩
    · intro a ha
      simp only [List.mem_cons, List.not_mem_nil, or_false] at ha
      rcases ha with rfl | rfl
      · exact Or.inl rfl
      · exact Or.inr (Or.inr (Or.inr (errorStatusFor_step cfg e)))
    · intro a ha
      simp only [Option.some.injEq] at ha
      subst ha
      exact Or.inr (Or.inr (errorStatusFor_step cfg e))
  · refine ⟨?_, ?_⟩
    · intro a ha
      simp only [List.mem_cons, List.mem_map] at ha
      rcases ha with rfl | rfl | ⟨st, hst, rfl⟩
      · exact Or.inl rfl
      · exact Or.inr (Or.inl rfl)
      · exact Or.inr (Or.inl (hG st hst))
    · intro a ha
      simp at ha
  · refine ⟨?_, ?_⟩
    · intro a ha
      simp only [List.mem_cons, List.mem_append, List.mem_map,
        List.not_mem_nil, or_false] at ha
      rcases ha with rfl | rfl | ⟨st, hst, rfl⟩ | rfl | rfl
      · exact Or.inl rfl
      · exact Or.inr (Or.inl rfl)
      · exact Or.inr (Or.inl (hG st hst))
      · exact Or.inr (Or.inl hR)
      · exact Or.inr (Or.inr (Or.inl rfl))
    · intro a ha
      simp only [Option.some.injEq] at ha
      subst ha
      exact Or.inr (Or.inl rfl)
  · refine ⟨?_, ?_⟩
    · intro a ha
      simp only [List.mem_cons, List.mem_append, List.mem_map,
        List.not_mem_nil, or_false] at ha
      rcases ha with rfl | rfl | ⟨st, hst, rfl⟩ | rfl
      · exact Or.inl rfl
      · exact Or.inr (Or.inl rfl)
      · exact Or.inr (Or.inl (hG st hst))
      · exact Or.inr (Or.inr (Or.inr (errorStatusFor_step cfg e)))
    · intro a ha
      simp only [Option.some.injEq] at ha
      subst ha
      exact Or.inr (Or.inr (errorStatusFor_step cfg e))

/-- C9: although the step enumeration includes 'polling', no reachable
workflow state has step 'polling': every reachable state's step is one of
idle, analyzing, generating, completed, error. -/
theorem reachable_step_never_polling (s : AppState) (h : Reachable s) :
    s.status.step ≠ Step.polling ∧
    (s.status.step = Step.idle ∨ s.status.step = Step.analyzing ∨
      s.status.step = Step.generating ∨ s.status.step = Step.completed ∨
      s.status.step = Step.error) := by
  induction h with
  | init => exact ⟨by decide, Or.inl rfl⟩
  | upload s file hs ih =>
    have hst : (handleImageUpload s file).status = s.status := by
      cases file with
      | none => rfl
      | some f => rfl
    rw [hst]
    exact ih
  | clearImage s hs ih => exact ih
  | genTrace cfg veoCfg fallback s env a hs hmem ih =>
    have hb := (startGeneration_steps_bound cfg veoCfg fallback s env).1 a hmem
    rcases hb with h1 | h1 | h1 | h1 <;> rw [h1] <;>
      exact ⟨by decide, by simp⟩
  | genFinal cfg veoCfg fallback s env a hs hfin ih =>
    have hb := (startGeneration_steps_bound cfg veoCfg fallback s env).2 a hfin
    rcases hb with rfl | h1 | h1
    · exact ih
    · rw [h1]
      exact ⟨by decide, by simp⟩
    · rw [h1]
      exact ⟨by decide, by simp⟩

/-- Witness for C9: the initial state is reachable and its step, idle, is
not 'polling'. -/
theorem reachable_step_never_polling_witness :
    initialAppState.status.step ≠ Step.polling ∧
    (initialAppState.status.step = Step.idle ∨
      initialAppState.status.step = Step.analyzing ∨
      initialAppState.status.step = Step.generating ∨
      initialAppState.status.step = Step.completed ∨
      initialAppState.status.step = Step.error) :=
  reachable_step_never_polling initialAppState Reachable.init

/-- C10: when a generation run fails (the final state of `startGeneration`
carries the error step), the stored Generation Result is left unchanged:
the final state's result is exactly the result held before the run. -/
theorem startGeneration_error_keeps_result (cfg : AppConfig) (veoCfg : VeoConfig)
    (fallback : String) (s : AppState) (env : GenEnv) (s' : AppState)
    (hfin : (startGeneration cfg veoCfg fallback s env).2 = some s')
    (herr : s'.status.step = Step.error) :
    s'.result = s.result := by
  rcases startGeneration_cases cfg veoCfg fallback s env with
    h | ⟨e, h⟩ | ⟨G, hG, h⟩ | ⟨G, stR, url, P, hG, hR, h⟩ | ⟨G, e, hG, h⟩ <;>
    rw [h] at hfin
  · simp only [Option.some.injEq] at hfin
    subst hfin
    rfl
  · simp only [Option.some.injEq] at hfin
    subst hfin
    rfl
  · simp at hfin
  · simp only [Option.some.injEq] at hfin
    subst hfin
    simp at herr
  · simp only [Option.some.injEq] at hfin
    subst hfin
    rfl

/-- Witness for C10: a run failing at the text-model call leaves the
previously stored result in place. -/
theorem startGeneration_error_keeps_result_witness :
    ((startGeneration appConfigV1 veoConfigService directorFallbackService
        ⟨some ⟨"img", "image/jpeg"⟩, ⟨Step.completed, "done", none⟩,
          some ⟨"blob:old", "old prompt"⟩⟩
        ⟨true, "KEY", Except.error ⟨"boom"⟩,
          ⟨Except.error ⟨"x"⟩, [], fun _ => 0, id⟩⟩).2 =
      some ⟨some ⟨"img", "image/jpeg"⟩, ⟨Step.error, "Production interrupted.", none⟩,
        some ⟨"blob:old", "old prompt"⟩⟩) ∧
    (some ⟨"blob:old", "old prompt"⟩ : Option GenerationResult) =
      some ⟨"blob:old", "old prompt"⟩ := by
  have hf : (startGeneration appConfigV1 veoConfigService directorFallbackService
      ⟨some ⟨"img", "image/jpeg"⟩, ⟨Step.completed, "done", none⟩,
        some ⟨"blob:old", "old prompt"⟩⟩
      ⟨true, "KEY", Except.error ⟨"boom"⟩,
        ⟨Except.error ⟨"x"⟩, [], fun _ => 0, id⟩⟩).2 =
      some ⟨some ⟨"img", "image/jpeg"⟩, ⟨Step.error, "Production interrupted.", none⟩,
        some ⟨"blob:old", "old prompt"⟩⟩ := by decide
  exact ⟨hf, startGeneration_error_keeps_result appConfigV1 veoConfigService
    directorFallbackService _ _ _ hf rfl⟩

/-- Counterexample to C8 as stated: from a completed state holding a prior
result, the new run's first in-flight state has step analyzing yet still
holds the prior result — the prior Generation Result is not discarded
once the new generation is in flight. -/
theorem startGeneration_reentry_counterexample :
    (⟨some ⟨"img", "image/jpeg"⟩, ⟨Step.completed, "done", none⟩,
       some ⟨"blob:old", "old prompt"⟩⟩ : AppState).status.step = Step.completed ∧
    ((startGeneration appConfigV1 veoConfigService directorFallbackService
        ⟨some ⟨"img", "image/jpeg"⟩, ⟨Step.completed, "done", none⟩,
          some ⟨"blob:old", "old prompt"⟩⟩
        ⟨true, "KEY", Except.error ⟨"boom"⟩,
          ⟨Except.error ⟨"x"⟩, [], fun _ => 0, id⟩⟩).1.map
        (fun a => (a.status.step, a.result))) =
      [(Step.analyzing, some ⟨"blob:old", "old prompt"⟩),
       (Step.error, some ⟨"blob:old", "old prompt"⟩)] := by decide

/-- C8 amended: a new generation request from any state with a selected
image (in particular from completed or error) resets the status to
analyzing, but the prior Generation Result is retained in that first
in-flight state; the result is discarded only when a new image is
uploaded (`handleImageUpload` resets it to null). -/
theorem startGeneration_reentry_amended (cfg : AppConfig) (veoCfg : VeoConfig)
    (fallback : String) (s : AppState) (env : GenEnv) (img : ImageRef)
    (himg : s.selectedImage = some img) (hkey : env.ensureKey = true) :
    (startGeneration cfg veoCfg fallback s env).1.head? =
      some { s with status := ⟨Step.analyzing, cfg.analyzingMsg, none⟩ } ∧
    ((startGeneration cfg veoCfg fallback s env).1.head?.map (fun a => a.result)) =
      some s.result ∧
    (∀ f : UploadFile, (handleImageUpload s (some f)).result = none) := by
  have hhead : (startGeneration cfg veoCfg fallback s env).1.head? =
      some { s with status := ⟨Step.analyzing, cfg.analyzingMsg, none⟩ } := by
    unfold startGeneration
    rw [himg]
    dsimp only
    rw [hkey]
    dsimp only
    rcases env.director with e | response
    · rfl
    · dsimp only
      rcases (generateVeoVideoWith veoCfg env.apiKey
          (generateDirectorPromptWith fallback img.data img.mimeType response)
          img.data img.mimeType env.veo).1 with _ | res
      · rfl
      · rcases res with e | url <;> rfl
  refine ⟨hhead, ?_, fun f => rfl⟩
  rw [hhead]
  rfl

/-- Witness for C8's amended claim: the concrete completed state of the
counterexample resets to analyzing with its prior result retained, and an
upload clears the result. -/
theorem startGeneration_reentry_amended_witness :
    (startGeneration appConfigV1 veoConfigService directorFallbackService
        ⟨some ⟨"img", "image/jpeg"⟩, ⟨Step.completed, "done", none⟩,
          some ⟨"blob:old", "old prompt"⟩⟩
        ⟨true, "KEY", Except.error ⟨"boom"⟩,
          ⟨Except.error ⟨"x"⟩, [], fun _ => 0, id⟩⟩).1.head? =
      some ⟨some ⟨"img", "image/jpeg"⟩,
        ⟨Step.analyzing, "Director composing 5s hero sequence...", none⟩,
        some ⟨"blob:old", "old prompt"⟩⟩ ∧
    (handleImageUpload
        ⟨some ⟨"img", "image/jpeg"⟩, ⟨Step.completed, "done", none⟩,
          some ⟨"blob:old", "old prompt"⟩⟩
        (some ⟨"data:image/png;base64,QUJD", "image/png"⟩)).result = none := by
  have h := startGeneration_reentry_amended appConfigV1 veoConfigService
    directorFallbackService
    ⟨some ⟨"img", "image/jpeg"⟩, ⟨Step.completed, "done", none⟩,
      some ⟨"blob:old", "old prompt"⟩⟩
    ⟨true, "KEY", Except.error ⟨"boom"⟩, ⟨Except.error ⟨"x"⟩, [], fun _ => 0, id⟩⟩
    ⟨"img", "image/jpeg"⟩ rfl rfl
  exact ⟨h.1, h.2.2 ⟨"data:image/png;base64,QUJD", "image/png"⟩⟩

end AerialCinema
